import Mathlib

/-!
# Provider config codec of package `v1alpha1` (`common_types.go`)

A shallow embedding of the Go file
`pkg/apis/cluster/v1alpha1/common_types.go` of the machine-controller-manager
API package: the data types `ProviderConfig`, `ProviderConfigSource`,
`MachineClassRef`, and the codec `ProviderConfigCodec` with `NewScheme`,
`NewCodec`, `newEncoder`, `DecodeFromProviderConfig`, `EncodeToProviderConfig`.

Conventions of the embedding.

* A Go function returning `(T, error)` is a function into `Except GoError T`:
  `return nil, err` is `.error err`, `return x, nil` is `.ok x`.
* A Go function returning only `error` returns `Option GoError` (`none` is `nil`).
* Calls into the apimachinery framework (`runtime.Encoder`, `runtime.Decoder`,
  `serializer.CodecFactory`, `runtime.NewScheme`) are not part of the file; they
  are parameters.  An encoder or decoder may keep state of its own, so each call
  takes and returns a state `σ` (explicit state passing): the number of calls a
  function makes is visible in the state it returns.
* An object that Go mutates in place (`out`, the scheme given to `AddToScheme`)
  is passed in and returned.
* A slice handed to a callee shares its bytes with the caller: `Decode` receives
  `machineClass.ProviderConfig.Raw` uncopied, so a call of `Decode` also returns
  the bytes of that slice as it left them.
* The destination `out` is either an object of its own or the machine class
  itself (`out == machineClass`); see `Destination`.  Other overlaps of memory
  between the two arguments are not modelled.
* The pointer `machineClass` is an `Option`: dereferencing `nil` is a run-time
  panic, the outcome `Run.panicked`.  The receiver `codec` and its two fields are
  taken non-nil, as `NewCodec` builds them.
-/

/-! ## Values of the Go run time and of apimachinery -/

/-- One byte. -/
abbrev Byte := Fin 256

/-- Contents of a Go `[]byte`. -/
abbrev GoBytes := List Byte

/-- Go `error` value that is not `nil`; `Error` is the text its `Error()` method
returns. -/
structure GoError where
  Error : String
deriving DecidableEq, Repr

namespace fmt

/-- The call `fmt.Errorf(format, args...)` once the format verbs are filled in:
`text` is the formatted message.  The verb `%v` applied to an error prints the
text of its `Error()` method. -/
def Errorf (text : String) : GoError := ⟨text⟩

end fmt

deriving instance DecidableEq for Except

/-- How a Go call ends: it returns a value, or it panics. -/
inductive Run (α : Type) where
  | returned (a : α)
  | panicked
deriving DecidableEq, Repr

namespace bytes

/-- The type `bytes.Buffer`, of which only writing and `Bytes()` are used: `buf`
holds everything written so far (nothing is ever read off the front). -/
structure Buffer where
  buf : GoBytes := []
deriving DecidableEq, Repr

/-- Method `Write` appends `p` to the buffer. -/
def Buffer.Write (b : Buffer) (p : GoBytes) : Buffer := ⟨b.buf ++ p⟩

/-- Method `Bytes` is the unread portion of the buffer, here all of it. -/
def Buffer.Bytes (b : Buffer) : GoBytes := b.buf

end bytes

namespace schema

/-- The type `schema.GroupVersion`. -/
structure GroupVersion where
  Group : String
  Version : String
deriving DecidableEq, Repr

/-- The type `schema.GroupVersionKind`. -/
structure GroupVersionKind where
  Group : String
  Version : String
  Kind : String
deriving DecidableEq, Repr

end schema

namespace runtime

/-- The type `runtime.RawExtension`: the raw serialized bytes.  Its second field
`Object` is never set by this package and is left out. -/
structure RawExtension where
  Raw : GoBytes
deriving DecidableEq, Repr

/-- What one call `Encode(obj, w)` does: the bytes it wrote to the writer `w`, in
order, and the error it returned.  An encoder may write some bytes and then
fail. -/
structure EncodeResult where
  written : GoBytes
  err : Option GoError
deriving DecidableEq, Repr

/-- The interface `runtime.Encoder`, over encoder state `σ` and objects `Obj`. -/
structure Encoder (σ Obj : Type) where
  Encode : σ → Obj → σ × EncodeResult

/-- What one call `Decode(data, defaults, into)` does: the three values it
returns, the destination `into` as the call left it, and the bytes of the slice
`data` as the call left them (the callee gets the slice uncopied and can
overwrite its bytes in place; a decoder that only reads returns them as they
were). -/
structure DecodeResult (Obj : Type) where
  obj : Option Obj
  gvk : Option schema.GroupVersionKind
  err : Option GoError
  into : Obj
  data : GoBytes
deriving DecidableEq, Repr

/-- The interface `runtime.Decoder`. -/
structure Decoder (σ Obj : Type) where
  Decode : σ → GoBytes → Option schema.GroupVersionKind → Obj → σ × DecodeResult Obj

/-- The interface `runtime.Serializer`: an encoder and a decoder. -/
structure Serializer (σ Obj : Type) extends Encoder σ Obj, Decoder σ Obj

/-- The type `runtime.SerializerInfo`; of its fields only the media type and the
serializer are kept. -/
structure SerializerInfo (σ Obj : Type) where
  MediaType : String
  Serializer : runtime.Serializer σ Obj

end runtime

namespace serializer

/-- The methods of `serializer.CodecFactory` this package calls. -/
structure CodecFactory (σ Obj : Type) where
  SupportedMediaTypes : List (runtime.SerializerInfo σ Obj)
  EncoderForVersion : runtime.Encoder σ Obj → schema.GroupVersion → runtime.Encoder σ Obj
  UniversalDecoder : List schema.GroupVersion → runtime.Decoder σ Obj

end serializer

namespace v1alpha1

/-! ## Data types of `common_types.go` -/

/-- Struct `MachineClassRef`.  The Go map `Parameters` is an association list
(keys unique, order of no meaning). -/
structure MachineClassRef where
  Name : String
  Parameters : List (String × String)
  Kind : String
deriving DecidableEq, Repr

/-- Struct `ProviderConfigSource`. -/
structure ProviderConfigSource where
  MachineClass : Option MachineClassRef
deriving DecidableEq, Repr

/-- Struct `ProviderConfig`. -/
structure ProviderConfig where
  Value : Option runtime.RawExtension
  ValueFrom : Option ProviderConfigSource
deriving DecidableEq, Repr

/-- Type `ConditionStatus`, a string. -/
abbrev ConditionStatus := String

/-- Constant `ConditionTrue`. -/
def ConditionTrue : ConditionStatus := "True"

/-- Constant `ConditionFalse`. -/
def ConditionFalse : ConditionStatus := "False"

/-- Constant `ConditionUnknown`. -/
def ConditionUnknown : ConditionStatus := "Unknown"

/-- Modelled from the spec: struct `MachineClass` is declared in another file of
the package; `DecodeFromProviderConfig` reads `machineClass.ProviderConfig.Raw`,
so it has a field `ProviderConfig` holding a `Raw` byte payload.  All its other
fields are gathered in `rest`. -/
structure MachineClass (ρ : Type) where
  rest : ρ
  ProviderConfig : runtime.RawExtension
deriving DecidableEq, Repr

/-- Struct `ProviderConfigCodec`. -/
structure ProviderConfigCodec (σ Obj : Type) where
  encoder : runtime.Encoder σ Obj
  decoder : runtime.Decoder σ Obj

/-- What `common_types.go` takes from outside the file: `runtime.NewScheme` and
`serializer.NewCodecFactory` of apimachinery, and `AddToScheme` and
`SchemeGroupVersion`, which the package declares in another file.  `Scheme` is
the type registry; `AddToScheme` changes the registry it is given and may
fail. -/
structure Env (Scheme σ Obj : Type) where
  runtime_NewScheme : Scheme
  serializer_NewCodecFactory : Scheme → serializer.CodecFactory σ Obj
  AddToScheme : Scheme → Scheme × Option GoError
  SchemeGroupVersion : schema.GroupVersion

/-! ## Functions of `common_types.go` -/

/-- Function `NewScheme` (lines 88-97). -/
def NewScheme {Scheme σ Obj : Type} (env : Env Scheme σ Obj) : Except GoError Scheme :=
  let scheme := env.runtime_NewScheme
  match env.AddToScheme scheme with
  | (_, some err) => .error err
  | (scheme, none) =>
    match env.AddToScheme scheme with
    | (_, some err) => .error err
    | (scheme, none) => .ok scheme

/-- Function `newEncoder` (lines 116-123). -/
def newEncoder {Scheme σ Obj : Type} (env : Env Scheme σ Obj)
    (codecFactory : serializer.CodecFactory σ Obj) : Except GoError (runtime.Encoder σ Obj) :=
  let serializerInfos := codecFactory.SupportedMediaTypes
  match serializerInfos with
  | [] => .error (fmt.Errorf "unable to find any serlializers")
  | info0 :: _ =>
    let encoder := codecFactory.EncoderForVersion info0.Serializer.toEncoder env.SchemeGroupVersion
    .ok encoder

/-- Function `NewCodec` (lines 99-114). -/
def NewCodec {Scheme σ Obj : Type} (env : Env Scheme σ Obj) :
    Except GoError (ProviderConfigCodec σ Obj) :=
  match NewScheme env with
  | .error err => .error err
  | .ok scheme =>
    let codecFactory := env.serializer_NewCodecFactory scheme
    match newEncoder env codecFactory with
    | .error err => .error err
    | .ok encoder =>
      .ok { encoder := encoder
            decoder := codecFactory.UniversalDecoder [env.SchemeGroupVersion] }

/-- The argument `out` of `DecodeFromProviderConfig`, a `runtime.Object`, with
where it lies in memory relative to the machine class.

* `object o`: an object of its own, holding `o`, that shares no memory with the
  machine class.
* `machineClass view read`: the machine class itself, passed as
  `runtime.Object` (`out == machineClass`); `view` is the machine class seen as
  an object and `read` reads the object behind `out` as a machine class. -/
inductive Destination (ρ Obj : Type) where
  | object (o : Obj)
  | machineClass (view : MachineClass ρ → Obj) (read : Obj → MachineClass ρ)

/-- The object the decoder is given as `into`. -/
def Destination.into {ρ Obj : Type} (out : Destination ρ Obj) (mc : MachineClass ρ) : Obj :=
  match out with
  | .object o => o
  | .machineClass view _ => view mc

/-- The machine class after a call of `Decode` with result `r`.  The method
itself assigns nothing to it.  When `out` is an object of its own, the other
fields are as before and `ProviderConfig.Raw`, whose bytes the decoder shared,
holds the bytes as the decoder left them; when `out` is the machine class, the
machine class is what the decoder left behind `into`. -/
def Destination.machineClassAfter {ρ Obj : Type} (out : Destination ρ Obj)
    (mc : MachineClass ρ) (r : runtime.DecodeResult Obj) : MachineClass ρ :=
  match out with
  | .object _ => ⟨mc.rest, ⟨r.data⟩⟩
  | .machineClass _ read => read r.into

/-- What a call of `DecodeFromProviderConfig` that returns leaves behind: the
machine class and the destination as they are after the call, and the returned
error. -/
structure DecodeOutcome (ρ Obj : Type) where
  machineClass : MachineClass ρ
  out : Obj
  err : Option GoError
deriving DecidableEq, Repr

/-- Method `DecodeFromProviderConfig` (lines 125-131).  The argument
`machineClass.ProviderConfig.Raw` is evaluated before the decoder is called, so
a nil `machineClass` panics without any call. -/
def ProviderConfigCodec.DecodeFromProviderConfig {σ Obj ρ : Type}
    (codec : ProviderConfigCodec σ Obj) (s : σ)
    (machineClass : Option (MachineClass ρ)) (out : Destination ρ Obj) :
    Run (σ × DecodeOutcome ρ Obj) :=
  match machineClass with
  | none => .panicked
  | some mc =>
    let r := codec.decoder.Decode s mc.ProviderConfig.Raw none (out.into mc)
    match r.2.err with
    | some err =>
      .returned (r.1, ⟨out.machineClassAfter mc r.2, r.2.into,
        some (fmt.Errorf ("decoding failure: " ++ err.Error))⟩)
    | none => .returned (r.1, ⟨out.machineClassAfter mc r.2, r.2.into, none⟩)

/-- Method `EncodeToProviderConfig` (lines 133-141).  `obj` is the Go parameter
`in`. -/
def ProviderConfigCodec.EncodeToProviderConfig {σ Obj : Type}
    (codec : ProviderConfigCodec σ Obj) (s : σ) (obj : Obj) :
    σ × Except GoError ProviderConfig :=
  let buf : bytes.Buffer := {}
  let r := codec.encoder.Encode s obj
  let buf := buf.Write r.2.written
  match r.2.err with
  | some err => (r.1, .error (fmt.Errorf ("encoding failed: " ++ err.Error)))
  | none => (r.1, .ok { Value := some { Raw := buf.Bytes }, ValueFrom := none })

/-! ## Properties the theorems speak about -/

/-- The constraint documented on struct `ProviderConfig`: "No more than one of
the following may be specified." -/
def ProviderConfig.NoMoreThanOne (p : ProviderConfig) : Bool :=
  !(p.Value.isSome && p.ValueFrom.isSome)

/-- The decoder of `codec` inverts its encoder: whenever the encoder accepts an
object `x` (returns no error), decoding the bytes it wrote, with no defaults and
into any destination, returns no error and leaves the destination equal to
`x`. -/
def ProviderConfigCodec.DecoderInvertsEncoder {σ Obj : Type}
    (codec : ProviderConfigCodec σ Obj) : Prop :=
  ∀ (s : σ) (x : Obj), (codec.encoder.Encode s x).2.err = none →
    ∀ (t : σ) (out : Obj),
      (codec.decoder.Decode t (codec.encoder.Encode s x).2.written none out).2.err = none ∧
      (codec.decoder.Decode t (codec.encoder.Encode s x).2.written none out).2.into = x

namespace fixture

/-- The object `MachineClassRef{Name: "m1", Kind: "aws", Parameters: {"zone": "us-east-1a"}}`. -/
def m1 : MachineClassRef := ⟨"m1", [("zone", "us-east-1a")], "aws"⟩

/-- The zero value of `MachineClassRef`, a fresh destination. -/
def fresh : MachineClassRef := ⟨"", [], ""⟩

/-- The 61 ASCII bytes of
`{"name":"m1","parameters":{"zone":"us-east-1a"},"kind":"aws"}`. -/
def m1JSON : GoBytes :=
  [123, 34, 110, 97, 109, 101, 34, 58, 34, 109, 49, 34, 44, 34, 112, 97, 114, 97, 109, 101,
   116, 101, 114, 115, 34, 58, 123, 34, 122, 111, 110, 101, 34, 58, 34, 117, 115, 45, 101, 97,
   115, 116, 45, 49, 97, 34, 125, 44, 34, 107, 105, 110, 100, 34, 58, 34, 97, 119, 115, 34, 125]

/-- Stub encoder: accepts only `m1`, for which it writes `m1JSON`; for any other
object it writes nothing and fails. -/
def encoder : runtime.Encoder Nat MachineClassRef :=
  ⟨fun n obj =>
    if obj = m1 then (n + 1, ⟨m1JSON, none⟩)
    else (n + 1, ⟨[], some ⟨"unsupported object"⟩⟩)⟩

/-- Stub decoder: recognises exactly `m1JSON`, storing `m1` in the destination;
on any other payload it fails and leaves the destination alone.  It only reads
the payload. -/
def decoder : runtime.Decoder Nat MachineClassRef :=
  ⟨fun n data _ into =>
    if data = m1JSON then (n + 1, ⟨some m1, none, none, m1, data⟩)
    else (n + 1, ⟨none, none, some ⟨"unexpected end of JSON input"⟩, into, data⟩)⟩

/-- Codec of the stub encoder and the stub decoder. -/
def codec : ProviderConfigCodec Nat MachineClassRef := ⟨encoder, decoder⟩

/-- Stub encoder that accepts every object and writes no byte. -/
def silentEncoder : runtime.Encoder Nat MachineClassRef :=
  ⟨fun n _ => (n + 1, ⟨[], none⟩)⟩

/-- Codec of the silent encoder and the stub decoder. -/
def silentCodec : ProviderConfigCodec Nat MachineClassRef := ⟨silentEncoder, decoder⟩

/-- A group-version for the stubs. -/
def gv : schema.GroupVersion := ⟨"cluster.k8s.io", "v1alpha1"⟩

/-- Serializer entry for JSON: the stub encoder and decoder. -/
def jsonInfo : runtime.SerializerInfo Nat MachineClassRef :=
  ⟨"application/json", { toEncoder := encoder, toDecoder := decoder }⟩

/-- Serializer entry for YAML: the silent encoder and the stub decoder. -/
def yamlInfo : runtime.SerializerInfo Nat MachineClassRef :=
  ⟨"application/yaml", { toEncoder := silentEncoder, toDecoder := decoder }⟩

/-- Stub factory reporting the media types `infos`; its version-bound encoder is
the given serializer, its universal decoder the stub decoder. -/
def factory (infos : List (runtime.SerializerInfo Nat MachineClassRef)) :
    serializer.CodecFactory Nat MachineClassRef :=
  ⟨infos, fun enc _ => enc, fun _ => decoder⟩

/-- Stub environment whose registry is the number of registrations made, whose
registration always succeeds, and whose factory reports `infos`. -/
def env (infos : List (runtime.SerializerInfo Nat MachineClassRef)) :
    Env Nat Nat MachineClassRef :=
  ⟨0, fun _ => factory infos, fun n => (n + 1, none), gv⟩

/-- Stub environment whose registration fails with `e` on a registry that already
holds `k` registrations, and succeeds otherwise. -/
def failingEnv (k : Nat) (e : GoError) : Env Nat Nat MachineClassRef :=
  ⟨0, fun _ => factory [jsonInfo], fun n => if n = k then (n, some e) else (n + 1, none), gv⟩

end fixture

end v1alpha1

/-! ## Theorems -/

namespace v1alpha1

variable {Scheme σ Obj ρ : Type}

/-! ### Shared lemmas -/

/-- `NewScheme` unfolded along the results of the two registrations. -/
theorem NewScheme_eq (env : Env Scheme σ Obj) :
    NewScheme env =
      match (env.AddToScheme env.runtime_NewScheme).2 with
      | some e => .error e
      | none =>
        match (env.AddToScheme (env.AddToScheme env.runtime_NewScheme).1).2 with
        | some e => .error e
        | none => .ok (env.AddToScheme (env.AddToScheme env.runtime_NewScheme).1).1 := by
  unfold NewScheme
  rcases h1 : env.AddToScheme env.runtime_NewScheme with ⟨s1, _ | e1⟩
  · rcases h2 : env.AddToScheme s1 with ⟨s2, _ | e2⟩ <;> simp [h1, h2]
  · simp [h1]

/-- `newEncoder` on a factory that reports no media type. -/
theorem newEncoder_nil (env : Env Scheme σ Obj) (f : serializer.CodecFactory σ Obj)
    (h : f.SupportedMediaTypes = []) :
    newEncoder env f = .error ⟨"unable to find any serlializers"⟩ := by
  simp [newEncoder, h, fmt.Errorf]

/-- `newEncoder` on a factory that reports at least one media type. -/
theorem newEncoder_cons (env : Env Scheme σ Obj) (f : serializer.CodecFactory σ Obj)
    (info : runtime.SerializerInfo σ Obj) (rest : List (runtime.SerializerInfo σ Obj))
    (h : f.SupportedMediaTypes = info :: rest) :
    newEncoder env f = .ok (f.EncoderForVersion info.Serializer.toEncoder env.SchemeGroupVersion) := by
  simp [newEncoder, h]

/-- `NewCodec` once `NewScheme` has succeeded. -/
theorem NewCodec_of_scheme (env : Env Scheme σ Obj) (scheme : Scheme)
    (h : NewScheme env = .ok scheme) :
    NewCodec env =
      match newEncoder env (env.serializer_NewCodecFactory scheme) with
      | .error e => .error e
      | .ok encoder =>
        .ok ⟨encoder, (env.serializer_NewCodecFactory scheme).UniversalDecoder
          [env.SchemeGroupVersion]⟩ := by
  simp [NewCodec, h]

/-! ### `NewScheme` -/

/-- C7. `NewScheme` registers into one fresh registry twice in sequence, the
second registration acting on the registry as the first left it.  If the first
registration fails, `NewScheme` returns no registry and that error unchanged; if
the first succeeds and the second fails, it returns no registry and the second
error unchanged; if both succeed it returns the registry after both
registrations and no error.  So it fails exactly when the first call fails, or
the first succeeds and the second fails. -/
theorem NewScheme_registers_twice (env : Env Scheme σ Obj) :
    (∀ e, (env.AddToScheme env.runtime_NewScheme).2 = some e → NewScheme env = .error e) ∧
    (∀ e, (env.AddToScheme env.runtime_NewScheme).2 = none →
      (env.AddToScheme (env.AddToScheme env.runtime_NewScheme).1).2 = some e →
      NewScheme env = .error e) ∧
    ((env.AddToScheme env.runtime_NewScheme).2 = none →
      (env.AddToScheme (env.AddToScheme env.runtime_NewScheme).1).2 = none →
      NewScheme env = .ok (env.AddToScheme (env.AddToScheme env.runtime_NewScheme).1).1) ∧
    ((∃ e, NewScheme env = .error e) ↔
      ((env.AddToScheme env.runtime_NewScheme).2 ≠ none ∨
        ((env.AddToScheme env.runtime_NewScheme).2 = none ∧
          (env.AddToScheme (env.AddToScheme env.runtime_NewScheme).1).2 ≠ none))) := by
  rw [NewScheme_eq]
  rcases h1 : (env.AddToScheme env.runtime_NewScheme).2 with _ | e1
  · rcases h2 : (env.AddToScheme (env.AddToScheme env.runtime_NewScheme).1).2 with _ | e2 <;>
      simp
  · simp

/-- Witness of C7 at three stub environments: registration failing at the first
call, failing at the second call only, and never failing. -/
theorem NewScheme_registers_twice_witness :
    NewScheme (fixture.failingEnv 0 ⟨"first call fails"⟩) = .error ⟨"first call fails"⟩ ∧
    NewScheme (fixture.failingEnv 1 ⟨"second call fails"⟩) = .error ⟨"second call fails"⟩ ∧
    NewScheme (fixture.env []) = .ok 2 ∧
    ((∃ e, NewScheme (fixture.failingEnv 1 ⟨"second call fails"⟩) = .error e) ↔
      (((fixture.failingEnv 1 ⟨"second call fails"⟩).AddToScheme 0).2 ≠ none ∨
        (((fixture.failingEnv 1 ⟨"second call fails"⟩).AddToScheme 0).2 = none ∧
          ((fixture.failingEnv 1 ⟨"second call fails"⟩).AddToScheme 1).2 ≠ none))) :=
  ⟨rfl, rfl, rfl, (NewScheme_registers_twice (fixture.failingEnv 1 ⟨"second call fails"⟩)).2.2.2⟩

/-! ### `newEncoder` -/

/-- C3. On a factory whose list of supported media types is not empty,
`newEncoder` returns no error, and the encoder it returns is the factory's
`EncoderForVersion` applied to the serializer of the first entry of the list and
to `SchemeGroupVersion`.  Replacing the entries after the first by any others
(`rest2`) leaves the result unchanged. -/
theorem newEncoder_picks_first (env : Env Scheme σ Obj) (f : serializer.CodecFactory σ Obj)
    (info : runtime.SerializerInfo σ Obj) (rest : List (runtime.SerializerInfo σ Obj))
    (h : f.SupportedMediaTypes = info :: rest) :
    newEncoder env f =
        .ok (f.EncoderForVersion info.Serializer.toEncoder env.SchemeGroupVersion) ∧
    ∀ rest2 : List (runtime.SerializerInfo σ Obj),
      newEncoder env ⟨info :: rest2, f.EncoderForVersion, f.UniversalDecoder⟩ = newEncoder env f := by
  refine ⟨newEncoder_cons env f info rest h, fun rest2 => ?_⟩
  rw [newEncoder_cons env f info rest h, newEncoder_cons env _ info rest2 rfl]

/-- Witness of C3: the stub factory reporting JSON then YAML yields the JSON
serializer's encoder, as does the factory reporting JSON alone. -/
theorem newEncoder_picks_first_witness :
    (fixture.factory [fixture.jsonInfo, fixture.yamlInfo]).SupportedMediaTypes
        = fixture.jsonInfo :: [fixture.yamlInfo] ∧
    (newEncoder (fixture.env []) (fixture.factory [fixture.jsonInfo, fixture.yamlInfo])
        = .ok fixture.encoder ∧
      ∀ rest2, newEncoder (fixture.env []) (fixture.factory (fixture.jsonInfo :: rest2))
        = newEncoder (fixture.env []) (fixture.factory [fixture.jsonInfo, fixture.yamlInfo])) :=
  ⟨rfl, newEncoder_picks_first (fixture.env [])
    (fixture.factory [fixture.jsonInfo, fixture.yamlInfo]) fixture.jsonInfo [fixture.yamlInfo] rfl⟩

/-! ### `NewCodec` -/

/-- C10. `NewCodec` fails exactly when `NewScheme` fails or, `NewScheme` having
returned a registry, `newEncoder` fails on the factory built from that registry;
the error it returns is then that error, unchanged.  Otherwise it returns the
codec whose encoder is the one `newEncoder` returned and whose decoder is the
universal decoder of the same factory for `SchemeGroupVersion`; with a first
media type `info` the encoder is that factory's `EncoderForVersion` of
`info.Serializer` for the same `SchemeGroupVersion`. -/
theorem NewCodec_propagates (env : Env Scheme σ Obj) :
    (∀ e, NewScheme env = .error e → NewCodec env = .error e) ∧
    (∀ scheme, NewScheme env = .ok scheme →
      (∀ e, newEncoder env (env.serializer_NewCodecFactory scheme) = .error e →
        NewCodec env = .error e) ∧
      (∀ encoder, newEncoder env (env.serializer_NewCodecFactory scheme) = .ok encoder →
        NewCodec env = .ok ⟨encoder,
          (env.serializer_NewCodecFactory scheme).UniversalDecoder [env.SchemeGroupVersion]⟩) ∧
      (∀ info rest, (env.serializer_NewCodecFactory scheme).SupportedMediaTypes = info :: rest →
        NewCodec env = .ok
          ⟨(env.serializer_NewCodecFactory scheme).EncoderForVersion info.Serializer.toEncoder
              env.SchemeGroupVersion,
            (env.serializer_NewCodecFactory scheme).UniversalDecoder [env.SchemeGroupVersion]⟩)) ∧
    ((∃ e, NewCodec env = .error e) ↔
      ((∃ e, NewScheme env = .error e) ∨
        ∃ scheme e, NewScheme env = .ok scheme ∧
          newEncoder env (env.serializer_NewCodecFactory scheme) = .error e)) := by
  refine ⟨fun e h => by simp [NewCodec, h], fun scheme h => ⟨fun e he => ?_, fun enc he => ?_,
    fun info rest hl => ?_⟩, ?_⟩
  · rw [NewCodec_of_scheme env scheme h, he]
  · rw [NewCodec_of_scheme env scheme h, he]
  · rw [NewCodec_of_scheme env scheme h, newEncoder_cons env _ info rest hl]
  · rcases h : NewScheme env with e | scheme
    · simp [NewCodec, h]
    · rw [NewCodec_of_scheme env scheme h]
      rcases he : newEncoder env (env.serializer_NewCodecFactory scheme) with e | enc <;>
        simp [he]

/-- Witness of C10 at three stub environments: a failing registration, an empty
factory, and a factory reporting JSON then YAML. -/
theorem NewCodec_propagates_witness :
    NewCodec (fixture.failingEnv 1 ⟨"second call fails"⟩) = .error ⟨"second call fails"⟩ ∧
    NewCodec (fixture.env []) = .error ⟨"unable to find any serlializers"⟩ ∧
    NewCodec (fixture.env [fixture.jsonInfo, fixture.yamlInfo]) = .ok fixture.codec :=
  ⟨((NewCodec_propagates (fixture.failingEnv 1 ⟨"second call fails"⟩)).1 _ rfl),
    ((NewCodec_propagates (fixture.env [])).2.1 2 rfl).1 _ rfl,
    ((NewCodec_propagates (fixture.env [fixture.jsonInfo, fixture.yamlInfo])).2.1 2 rfl).2.1 _ rfl⟩

/-- Counterexample to C2 as stated: with the stub environment whose factory
reports no media type, scheme construction succeeds and `NewCodec` fails, but
the message of its error is "unable to find any serlializers", not
"no serlializers available". -/
theorem NewCodec_no_serializer_message_differs :
    NewScheme (fixture.env []) = .ok 2 ∧
    ((fixture.env []).serializer_NewCodecFactory 2).SupportedMediaTypes = [] ∧
    NewCodec (fixture.env []) = .error ⟨"unable to find any serlializers"⟩ ∧
    NewCodec (fixture.env []) ≠ .error ⟨"no serlializers available"⟩ := by
  refine ⟨rfl, rfl, rfl, ?_⟩
  intro h
  have h2 : (⟨"unable to find any serlializers"⟩ : GoError) = ⟨"no serlializers available"⟩ :=
    Except.error.inj ((rfl : NewCodec (fixture.env []) = .error _).symm.trans h)
  exact absurd h2 (by decide)

/-- C2, amended. When scheme construction succeeds with registry `scheme`,
`NewCodec` fails if and only if the factory built from `scheme` reports an empty
list of media types, and it returns the error with message
"unable to find any serlializers" if and only if that list is empty. -/
theorem NewCodec_fails_iff_no_serializer (env : Env Scheme σ Obj) (scheme : Scheme)
    (h : NewScheme env = .ok scheme) :
    ((∃ e, NewCodec env = .error e) ↔
      (env.serializer_NewCodecFactory scheme).SupportedMediaTypes = []) ∧
    (NewCodec env = .error ⟨"unable to find any serlializers"⟩ ↔
      (env.serializer_NewCodecFactory scheme).SupportedMediaTypes = []) := by
  rw [NewCodec_of_scheme env scheme h]
  rcases hl : (env.serializer_NewCodecFactory scheme).SupportedMediaTypes with _ | ⟨info, rest⟩
  · rw [newEncoder_nil env _ hl]
    simp
  · rw [newEncoder_cons env _ info rest hl]
    simp

/-- Witness of the amended C2: the stub environment with an empty factory. -/
theorem NewCodec_fails_iff_no_serializer_witness :
    NewScheme (fixture.env []) = .ok 2 ∧
    (((∃ e, NewCodec (fixture.env []) = .error e) ↔
      ((fixture.env []).serializer_NewCodecFactory 2).SupportedMediaTypes = []) ∧
    (NewCodec (fixture.env []) = .error ⟨"unable to find any serlializers"⟩ ↔
      ((fixture.env []).serializer_NewCodecFactory 2).SupportedMediaTypes = [])) :=
  ⟨rfl, NewCodec_fails_iff_no_serializer (fixture.env []) 2 rfl⟩

/-! ### `EncodeToProviderConfig` -/

/-- `EncodeToProviderConfig` when the encoder returns no error. -/
theorem EncodeToProviderConfig_ok (codec : ProviderConfigCodec σ Obj) (s : σ) (obj : Obj)
    (h : (codec.encoder.Encode s obj).2.err = none) :
    codec.EncodeToProviderConfig s obj =
      ((codec.encoder.Encode s obj).1,
        .ok ⟨some ⟨(codec.encoder.Encode s obj).2.written⟩, none⟩) := by
  simp [ProviderConfigCodec.EncodeToProviderConfig, h, bytes.Buffer.Write, bytes.Buffer.Bytes]

/-- `EncodeToProviderConfig` when the encoder returns the error `e`. -/
theorem EncodeToProviderConfig_error (codec : ProviderConfigCodec σ Obj) (s : σ) (obj : Obj)
    (e : GoError) (h : (codec.encoder.Encode s obj).2.err = some e) :
    codec.EncodeToProviderConfig s obj =
      ((codec.encoder.Encode s obj).1, .error ⟨"encoding failed: " ++ e.Error⟩) := by
  simp [ProviderConfigCodec.EncodeToProviderConfig, h, fmt.Errorf]

/-- C4. For every object on which the encoder of the codec succeeds,
`EncodeToProviderConfig` returns no error and a `ProviderConfig` whose
`ValueFrom` is nil and whose `Value` is set, with `Value.Raw` equal to the whole
byte sequence the encoder wrote; the result therefore satisfies "no more than
one of `Value`, `ValueFrom`".  The encoder is called once, on the given object. -/
theorem EncodeToProviderConfig_wraps_written (codec : ProviderConfigCodec σ Obj) (s : σ)
    (obj : Obj) (h : (codec.encoder.Encode s obj).2.err = none) :
    ∃ p : ProviderConfig,
      codec.EncodeToProviderConfig s obj = ((codec.encoder.Encode s obj).1, .ok p) ∧
      p.ValueFrom = none ∧
      p.Value = some ⟨(codec.encoder.Encode s obj).2.written⟩ ∧
      p.NoMoreThanOne = true :=
  ⟨_, EncodeToProviderConfig_ok codec s obj h, rfl, rfl, rfl⟩

/-- Witness of C4: the stub codec on `m1`. -/
theorem EncodeToProviderConfig_wraps_written_witness :
    (fixture.codec.encoder.Encode 0 fixture.m1).2.err = none ∧
    ∃ p : ProviderConfig,
      fixture.codec.EncodeToProviderConfig 0 fixture.m1 = (1, .ok p) ∧
      p.ValueFrom = none ∧
      p.Value = some ⟨fixture.m1JSON⟩ ∧
      p.NoMoreThanOne = true :=
  ⟨by decide, EncodeToProviderConfig_wraps_written fixture.codec 0 fixture.m1 (by decide)⟩

/-- C6. `EncodeToProviderConfig` returns an error if and only if the encoder
returns an error.  When the encoder returns the error `e`, the result is the
error with message "encoding failed: " followed by the message of `e`, and no
`ProviderConfig`; when the encoder returns no error, the result is a
`ProviderConfig`. -/
theorem EncodeToProviderConfig_error_iff (codec : ProviderConfigCodec σ Obj) (s : σ)
    (obj : Obj) :
    ((∃ e, (codec.EncodeToProviderConfig s obj).2 = .error e) ↔
      (codec.encoder.Encode s obj).2.err ≠ none) ∧
    (∀ e, (codec.encoder.Encode s obj).2.err = some e →
      (codec.EncodeToProviderConfig s obj).2 = .error ⟨"encoding failed: " ++ e.Error⟩) ∧
    ((codec.encoder.Encode s obj).2.err = none →
      ∃ p, (codec.EncodeToProviderConfig s obj).2 = .ok p) := by
  rcases h : (codec.encoder.Encode s obj).2.err with _ | e
  · simp [EncodeToProviderConfig_ok codec s obj h]
  · simp [EncodeToProviderConfig_error codec s obj e h]

/-- Witness of C6: the stub codec rejects the zero-valued object and accepts
`m1`. -/
theorem EncodeToProviderConfig_error_iff_witness :
    (fixture.codec.EncodeToProviderConfig 0 fixture.fresh).2
      = .error ⟨"encoding failed: unsupported object"⟩ ∧
    (fixture.codec.EncodeToProviderConfig 0 fixture.m1).2
      = .ok ⟨some ⟨fixture.m1JSON⟩, none⟩ :=
  ⟨(EncodeToProviderConfig_error_iff fixture.codec 0 fixture.fresh).2.1
      ⟨"unsupported object"⟩ (by decide),
    by decide⟩

/-- The method has no length check of its own: with a stub encoder that accepts
every object and writes no byte, it succeeds on `m1` with an empty `Value.Raw`.
Non-emptiness of `Value.Raw` comes from the wire format. -/
theorem EncodeToProviderConfig_silent_encoder :
    (fixture.silentCodec.EncodeToProviderConfig 0 fixture.m1).2 = .ok ⟨some ⟨[]⟩, none⟩ := by
  decide

/-! ### `DecodeFromProviderConfig` -/

/-- `DecodeFromProviderConfig` on a machine class that is not nil: one call of
the decoder on `ProviderConfig.Raw` with nil defaults and the destination `out`;
the error of that call, if any, is wrapped. -/
theorem DecodeFromProviderConfig_some (codec : ProviderConfigCodec σ Obj) (s : σ)
    (mc : MachineClass ρ) (out : Destination ρ Obj) :
    codec.DecodeFromProviderConfig s (some mc) out =
      .returned ((codec.decoder.Decode s mc.ProviderConfig.Raw none (out.into mc)).1,
        ⟨out.machineClassAfter mc
            (codec.decoder.Decode s mc.ProviderConfig.Raw none (out.into mc)).2,
          (codec.decoder.Decode s mc.ProviderConfig.Raw none (out.into mc)).2.into,
          (codec.decoder.Decode s mc.ProviderConfig.Raw none (out.into mc)).2.err.map
            fun e => ⟨"decoding failure: " ++ e.Error⟩⟩) := by
  unfold ProviderConfigCodec.DecodeFromProviderConfig
  rcases h : (codec.decoder.Decode s mc.ProviderConfig.Raw none (out.into mc)).2.err
    with _ | e <;> simp [h, fmt.Errorf]

/-- `DecodeFromProviderConfig` on a nil machine class panics. -/
theorem DecodeFromProviderConfig_nil (codec : ProviderConfigCodec σ Obj) (s : σ)
    (out : Destination ρ Obj) :
    codec.DecodeFromProviderConfig s (none : Option (MachineClass ρ)) out = .panicked := rfl

/-- C5. For every machine class and destination, `DecodeFromProviderConfig`
returns (it does not panic), and it returns an error if and only if the decoder
returns an error on `machineClass.ProviderConfig.Raw`.  When the decoder returns
the error `e`, the returned error has the message "decoding failure: " followed
by the message of `e`; when the decoder returns no error, nil is returned. -/
theorem DecodeFromProviderConfig_error_iff (codec : ProviderConfigCodec σ Obj) (s : σ)
    (mc : MachineClass ρ) (out : Destination ρ Obj) :
    ∃ (t : σ) (o : DecodeOutcome ρ Obj),
      codec.DecodeFromProviderConfig s (some mc) out = .returned (t, o) ∧
      (o.err ≠ none ↔
        (codec.decoder.Decode s mc.ProviderConfig.Raw none (out.into mc)).2.err ≠ none) ∧
      (∀ e, (codec.decoder.Decode s mc.ProviderConfig.Raw none (out.into mc)).2.err = some e →
        o.err = some ⟨"decoding failure: " ++ e.Error⟩) ∧
      ((codec.decoder.Decode s mc.ProviderConfig.Raw none (out.into mc)).2.err = none →
        o.err = none) := by
  refine ⟨_, _, DecodeFromProviderConfig_some codec s mc out, ?_, ?_, ?_⟩
  · rcases (codec.decoder.Decode s mc.ProviderConfig.Raw none (out.into mc)).2.err with _ | e <;>
      simp
  · intro e h
    simp [h]
  · intro h
    simp [h]

/-- Witness of C5: the stub codec on a truncated payload (the first two bytes of
`m1JSON`) returns the wrapped error and leaves the destination as it was; on the
whole payload it returns nil. -/
theorem DecodeFromProviderConfig_error_iff_witness :
    fixture.codec.DecodeFromProviderConfig 0 (some ⟨(), ⟨[123, 34]⟩⟩) (.object fixture.fresh)
      = .returned (1, ⟨⟨(), ⟨[123, 34]⟩⟩, fixture.fresh,
          some ⟨"decoding failure: unexpected end of JSON input"⟩⟩) ∧
    fixture.codec.DecodeFromProviderConfig 0 (some ⟨(), ⟨fixture.m1JSON⟩⟩) (.object fixture.fresh)
      = .returned (1, ⟨⟨(), ⟨fixture.m1JSON⟩⟩, fixture.m1, none⟩) ∧
    ∃ (t : Nat) (o : DecodeOutcome Unit MachineClassRef),
      fixture.codec.DecodeFromProviderConfig 0 (some ⟨(), ⟨[123, 34]⟩⟩) (.object fixture.fresh)
        = .returned (t, o) ∧
      (o.err ≠ none ↔ (fixture.codec.decoder.Decode 0 [123, 34] none fixture.fresh).2.err ≠ none) ∧
      (∀ e, (fixture.codec.decoder.Decode 0 [123, 34] none fixture.fresh).2.err = some e →
        o.err = some ⟨"decoding failure: " ++ e.Error⟩) ∧
      ((fixture.codec.decoder.Decode 0 [123, 34] none fixture.fresh).2.err = none →
        o.err = none) :=
  ⟨by decide, by decide,
    DecodeFromProviderConfig_error_iff fixture.codec 0 ⟨(), ⟨[123, 34]⟩⟩ (.object fixture.fresh)⟩

/-- The stub decoder inverts the stub encoder. -/
theorem fixture_codec_inverts : fixture.codec.DecoderInvertsEncoder := by
  intro s x hx t out
  by_cases hm : x = fixture.m1
  · subst hm
    exact ⟨rfl, rfl⟩
  · simp [fixture.codec, fixture.encoder, hm] at hx

/-- C1. Round trip: for a codec whose decoder inverts its encoder and an object
`x` its encoder accepts, `EncodeToProviderConfig` succeeds with a
`ProviderConfig` whose `Value` is set, and `DecodeFromProviderConfig`, applied
(in any decoder state, with any destination) to a machine class whose
`ProviderConfig.Raw` equals that `Value.Raw`, returns no error and leaves the
destination equal to `x`. -/
theorem roundtrip (codec : ProviderConfigCodec σ Obj) (h : codec.DecoderInvertsEncoder)
    (s : σ) (x : Obj) (hx : (codec.encoder.Encode s x).2.err = none) :
    ∃ (p : ProviderConfig) (raw : runtime.RawExtension),
      (codec.EncodeToProviderConfig s x).2 = .ok p ∧ p.Value = some raw ∧
      ∀ (mc : MachineClass ρ), mc.ProviderConfig.Raw = raw.Raw →
        ∀ (t : σ) (out : Destination ρ Obj), ∃ t2 : σ,
          codec.DecodeFromProviderConfig t (some mc) out
            = .returned (t2, ⟨out.machineClassAfter mc
                (codec.decoder.Decode t mc.ProviderConfig.Raw none (out.into mc)).2,
              x, none⟩) := by
  refine ⟨_, ⟨(codec.encoder.Encode s x).2.written⟩,
    by rw [EncodeToProviderConfig_ok codec s x hx], rfl, fun mc hmc t out => ?_⟩
  have hmc2 : mc.ProviderConfig.Raw = (codec.encoder.Encode s x).2.written := hmc
  obtain ⟨herr, hinto⟩ := h s x hx t (out.into mc)
  rw [← hmc2] at herr hinto
  refine ⟨(codec.decoder.Decode t mc.ProviderConfig.Raw none (out.into mc)).1, ?_⟩
  rw [DecodeFromProviderConfig_some, herr, hinto]
  rfl

/-- Witness of C1: the stub codec and
`MachineClassRef{Name: "m1", Kind: "aws", Parameters: {"zone": "us-east-1a"}}`,
decoded into a fresh `MachineClassRef`. -/
theorem roundtrip_witness :
    fixture.codec.DecoderInvertsEncoder ∧
    (fixture.codec.encoder.Encode 0 fixture.m1).2.err = none ∧
    (fixture.codec.EncodeToProviderConfig 0 fixture.m1).2 = .ok ⟨some ⟨fixture.m1JSON⟩, none⟩ ∧
    fixture.codec.DecodeFromProviderConfig 1 (some ⟨(), ⟨fixture.m1JSON⟩⟩) (.object fixture.fresh)
      = .returned (2, ⟨⟨(), ⟨fixture.m1JSON⟩⟩, fixture.m1, none⟩) ∧
    ∃ (p : ProviderConfig) (raw : runtime.RawExtension),
      (fixture.codec.EncodeToProviderConfig 0 fixture.m1).2 = .ok p ∧ p.Value = some raw ∧
      ∀ (mc : MachineClass Unit), mc.ProviderConfig.Raw = raw.Raw →
        ∀ (t : Nat) (out : Destination Unit MachineClassRef), ∃ t2 : Nat,
          fixture.codec.DecodeFromProviderConfig t (some mc) out
            = .returned (t2, ⟨out.machineClassAfter mc
                (fixture.codec.decoder.Decode t mc.ProviderConfig.Raw none (out.into mc)).2,
              fixture.m1, none⟩) :=
  ⟨fixture_codec_inverts, by decide, by decide, by decide,
    roundtrip fixture.codec fixture_codec_inverts 0 fixture.m1 (by decide)⟩

/-! ### Non-empty payload -/

end v1alpha1
